import Mathlib

/-!
Shallow embedding of the license-key validation engine and the
software-update gating engine of the backend repository
(`app/routers/keys.py`, `app/routers/updates.py`, with the record shapes
of `app/models/key_record.py` and `app/models/update_version.py`).

Conventions of the embedding:
* `datetime` values are modelled as `Int` timestamps; the only operation the
  code performs on them is comparison with `now`.
* SQLAlchemy nullable columns and Pydantic `Optional` fields are `Option`.
* Python truthiness on optional strings (`x or y`, `if not x`) is modelled
  explicitly: `none` and `some ""` are falsy, everything else truthy.
* The database session is modelled by passing the looked-up record (or the
  whole list of records, for the version store) in and out of each handler;
  the returned state is the state after `db.commit()`.
* `HTTPException` is modelled with `Except`: `Except.error` carries the
  detail string of the raised exception.
-/

namespace Backend

/-! ## Key records (`app/models/key_record.py`) -/

/-- Embedding of the `KeyRecord` SQLAlchemy model: one license key row. -/
structure KeyRecord where
  id : Nat
  key_value : String
  is_active : Bool
  created_at : Int
  expired_at : Option Int
  note : Option String
  machine_name : Option String
  os_version : Option String
  revit_version : Option String
  cpu_info : Option String
  ip_address : Option String
  machine_hash : Option String
  last_check : Option Int
deriving Repr, DecidableEq

/-- Embedding of the Pydantic `KeyValidateRequest` payload
(`app/schemas/keys.py`): all machine-metadata fields are optional. -/
structure KeyValidateRequest where
  key_value : String
  machine_name : Option String := none
  os_version : Option String := none
  revit_version : Option String := none
  cpu_info : Option String := none
  ip_address : Option String := none
  machine_hash : Option String := none
deriving Repr, DecidableEq

/-- The JSON object returned by `POST /keys/validate`.  The `machine_hash`
key is present only on the valid path; absence is modelled as `none`. -/
structure ValidateResponse where
  valid : Bool
  is_active : Bool
  expired_at : Option Int
  machine_hash : Option String := none
  note : String
deriving Repr, DecidableEq

/-- Python truthiness of an optional string: `None` and `""` are falsy. -/
def strTruthy : Option String → Bool
  | none => false
  | some s => decide (s ≠ "")

/-- `incoming or stored` on optional strings (Python `or` keeps `stored`
when `incoming` is `None` or empty). -/
def orKeep (incoming stored : Option String) : Option String :=
  if strTruthy incoming then incoming else stored

/-- `stored or default` collapsing to a plain string
(Python `record.note or "Valid license"`). -/
def strOr (stored : Option String) (dflt : String) : String :=
  match stored with
  | none => dflt
  | some s => if s = "" then dflt else s

/-- `record.expired_at and record.expired_at < now`: a `datetime` object is
always truthy in Python, so this is "set and in the past". -/
def isExpired (expired_at : Option Int) (now : Int) : Bool :=
  match expired_at with
  | some t => decide (t < now)
  | none => false

/-- Embedding of the `validate` handler (`app/routers/keys.py`, lines
85-139).  `record?` is the result of the lookup by `key_value`; the second
component of the result is the state of that record after the call. -/
def validate (record? : Option KeyRecord) (payload : KeyValidateRequest) (now : Int) :
    ValidateResponse × Option KeyRecord :=
  match record? with
  | none =>
      ({ valid := false, is_active := false, expired_at := none,
         machine_hash := none, note := "Key not found" }, none)
  | some record =>
      if record.is_active = false then
        ({ valid := false, is_active := false, expired_at := record.expired_at,
           machine_hash := none, note := "Key is locked" }, some record)
      else if isExpired record.expired_at now then
        ({ valid := false, is_active := true, expired_at := record.expired_at,
           machine_hash := none, note := "Key expired" }, some record)
      else
        let record' : KeyRecord :=
          { record with
            machine_name := orKeep payload.machine_name record.machine_name
            os_version := orKeep payload.os_version record.os_version
            revit_version := orKeep payload.revit_version record.revit_version
            cpu_info := orKeep payload.cpu_info record.cpu_info
            ip_address := orKeep payload.ip_address record.ip_address
            machine_hash :=
              if strTruthy record.machine_hash then record.machine_hash
              else payload.machine_hash
            last_check := some now }
        ({ valid := true, is_active := true, expired_at := record'.expired_at,
           machine_hash := record'.machine_hash,
           note := strOr record'.note "Valid license" }, some record')

/-! ### Concrete key records and payloads used in witnesses -/

/-- A fresh unbound active key (no expiry, no machine metadata). -/
def recFresh : KeyRecord where
  id := 1
  key_value := "K"
  is_active := true
  created_at := 0
  expired_at := none
  note := none
  machine_name := none
  os_version := none
  revit_version := none
  cpu_info := none
  ip_address := none
  machine_hash := none
  last_check := none

/-- An active key whose expiry (time 5) is in the past at time 10. -/
def recExpired : KeyRecord := { recFresh with id := 2, expired_at := some 5 }

/-- A locked key carrying machine metadata. -/
def recLocked : KeyRecord :=
  { recFresh with
    id := 3
    is_active := false
    machine_name := some "old"
    machine_hash := some "MH" }

/-- A bare validation payload carrying only the key. -/
def payBare : KeyValidateRequest where
  key_value := "K"

/-- A payload carrying a machine fingerprint `abc` and some metadata. -/
def payAbc : KeyValidateRequest :=
  { payBare with machine_name := some "new", machine_hash := some "abc" }

/-- A payload whose machine fingerprint is the empty string. -/
def payEmptyHash : KeyValidateRequest := { payBare with machine_hash := some "" }

/-- A payload carrying machine fingerprint `h2`. -/
def payH2 : KeyValidateRequest := { payBare with machine_hash := some "h2" }

/-! ## Version parsing (`app/routers/updates.py`, `parse_version`) -/

/-- Characters removed by Python `str.strip()` (ASCII whitespace; the rare
unicode whitespace characters are not modelled). -/
def isPyWs (c : Char) : Bool :=
  c = ' ' || c = '\t' || c = '\n' || c = '\r' || c.toNat = 11 || c.toNat = 12

/-- Python `str.strip()` on a character list. -/
def stripWs (cs : List Char) : List Char :=
  ((cs.dropWhile isPyWs).reverse.dropWhile isPyWs).reverse

/-- Python `str.split('.')`: always returns at least one group; consecutive
dots produce empty groups. -/
def splitOnDot : List Char → List (List Char)
  | [] => [[]]
  | c :: cs =>
    if c = '.' then [] :: splitOnDot cs
    else
      match splitOnDot cs with
      | [] => [[c]]
      | g :: gs => (c :: g) :: gs

/-- Value of a non-empty all-digit character list, else `none`. -/
def digitsVal (cs : List Char) : Option Nat :=
  if cs ≠ [] ∧ cs.all Char.isDigit = true then
    some (cs.foldl (fun acc c => 10 * acc + (c.toNat - 48)) 0)
  else none

/-- Python `int(str)`: strips whitespace, accepts an optional sign followed
by decimal digits, raises otherwise (modelled as `none`).  Underscore digit
grouping and non-ASCII digits are not modelled. -/
def pyInt (cs : List Char) : Option Int :=
  match stripWs cs with
  | '+' :: rest => (digitsVal rest).map fun n => (n : Int)
  | '-' :: rest => (digitsVal rest).map fun n => -(n : Int)
  | rest => (digitsVal rest).map fun n => (n : Int)

/-- `version_str.strip().lstrip('vV').split('.')` of `parse_version`. -/
def verComponents (version_str : String) : List (List Char) :=
  splitOnDot (List.dropWhile (fun c => c = 'v' || c = 'V') (stripWs version_str.data))

/-- A parsed 4-component version (major, minor, build, revision). -/
abbrev VerTuple := Int × Int × Int × Int

/-- Embedding of `parse_version` (`app/routers/updates.py`, lines 89-94).
The source pads the component list with `'0'` up to length 4 and converts
the first four entries with `int`; padding-then-slicing is expressed here as
`getD i ['0']` for indices 0..3, which selects the i-th component when
present and `'0'` otherwise — the same four strings the source converts.
A conversion failure (`ValueError`) is `none`. -/
def parse_version (version_str : String) : Option VerTuple :=
  let parts := verComponents version_str
  match pyInt (parts.getD 0 ['0']), pyInt (parts.getD 1 ['0']),
      pyInt (parts.getD 2 ['0']), pyInt (parts.getD 3 ['0']) with
  | some a, some b, some c, some d => some (a, b, c, d)
  | _, _, _, _ => none

/-- Python tuple `<` on two 4-tuples of ints: lexicographic. -/
def verLt : VerTuple → VerTuple → Bool
  | (a1, a2, a3, a4), (b1, b2, b3, b4) =>
    if a1 ≠ b1 then decide (a1 < b1)
    else if a2 ≠ b2 then decide (a2 < b2)
    else if a3 ≠ b3 then decide (a3 < b3)
    else decide (a4 < b4)

/-- Specification-side strict componentwise (lexicographic) order on
4-component versions, written out as a proposition. -/
def lexLt (a b : VerTuple) : Prop :=
  a.1 < b.1 ∨ (a.1 = b.1 ∧ (a.2.1 < b.2.1 ∨ (a.2.1 = b.2.1 ∧
    (a.2.2.1 < b.2.2.1 ∨ (a.2.2.1 = b.2.2.1 ∧ a.2.2.2 < b.2.2.2)))))

/-! ## Update version store (`app/models/update_version.py`) -/

/-- Embedding of the `UpdateVersion` SQLAlchemy model: one published
release. -/
structure UpdateVersion where
  id : Nat
  version : String
  release_date : Int
  release_notes : Option String
  download_url : String
  file_size : Int
  checksum_sha256 : String
  update_type : String
  force_update : Bool
  min_required_version : String
  is_active : Bool
  created_at : Int
  updated_at : Int
deriving Repr, DecidableEq

/-- Embedding of the `UpdateStatistic` SQLAlchemy model: one append-only
event row. -/
structure UpdateStatistic where
  machine_hash : String
  current_version : Option String
  target_version : Option String
  revit_version : Option String
  os_version : Option String
  action : String
  status : Option String
  error_message : Option String
deriving Repr, DecidableEq

/-- Embedding of the Pydantic `UpdateCheckRequest` (PascalCase wire names
`Product`, `CurrentVersion`, `RevitVersion`, `MachineHash`, `OS`). -/
structure UpdateCheckRequest where
  product : String
  currentVersion : String
  revitVersion : String
  machineHash : String
  os : String
deriving Repr, DecidableEq

/-- Embedding of the Pydantic `UpdateCheckResponse`.  `releaseDate` is kept
as the timestamp whose ISO rendering the handler returns. -/
structure UpdateCheckResponse where
  updateAvailable : Bool
  latestVersion : String
  minimumRequiredVersion : String
  releaseDate : Int
  releaseNotes : String
  downloadUrl : String
  fileSize : Int
  checksumSHA256 : String
  updateType : String
  forceUpdate : Bool
  notificationMessage : String
deriving Repr, DecidableEq

/-- Embedding of the `check_for_updates` handler (`app/routers/updates.py`,
lines 132-207).  `latest?` is the result of the query for the newest active
version (the whole body runs inside `try`; a `parse_version` failure is the
only modelled exception and surfaces as the HTTP-500 `Except.error`).  The
second component of a successful result is the list of statistic rows this
call appends. -/
def check_for_updates (latest? : Option UpdateVersion) (request : UpdateCheckRequest)
    (now : Int) : Except String (UpdateCheckResponse × List UpdateStatistic) :=
  match latest? with
  | none =>
      .ok ({ updateAvailable := false
             latestVersion := request.currentVersion
             minimumRequiredVersion := request.currentVersion
             releaseDate := now
             releaseNotes := "Chưa có bản phát hành nào"
             downloadUrl := ""
             fileSize := 0
             checksumSHA256 := ""
             updateType := "optional"
             forceUpdate := false
             notificationMessage := "Chưa có bản phát hành nào" }, [])
  | some latest =>
      match parse_version request.currentVersion with
      | none => .error "Update check failed"
      | some current_version =>
        match parse_version latest.version with
        | none => .error "Update check failed"
        | some latest_version =>
          let update_available := verLt current_version latest_version
          match parse_version latest.min_required_version with
          | none => .error "Update check failed"
          | some min_required =>
            let force_update := verLt current_version min_required
            let update_type := if force_update then "mandatory" else latest.update_type
            let notification_msg :=
              if force_update then "⚠️ CẬP NHẬT BẮT BUỘC - Phiên bản của bạn đã quá cũ"
              else if update_available then
                "🎉 Phiên bản mới có sẵn! Cập nhật để có trải nghiệm tốt nhất"
              else "✅ Bạn đang sử dụng phiên bản mới nhất"
            let stat : UpdateStatistic :=
              { machine_hash := request.machineHash
                current_version := some request.currentVersion
                target_version := if update_available then some latest.version else none
                revit_version := some request.revitVersion
                os_version := some request.os
                action := "check"
                status := some "success"
                error_message := none }
            .ok ({ updateAvailable := update_available
                   latestVersion := latest.version
                   minimumRequiredVersion := latest.min_required_version
                   releaseDate := latest.release_date
                   releaseNotes := latest.release_notes.getD ""
                   downloadUrl := latest.download_url
                   fileSize := latest.file_size
                   checksumSHA256 := latest.checksum_sha256
                   updateType := update_type
                   forceUpdate := force_update
                   notificationMessage := notification_msg }, [stat])

/-- Response component of a successful check, `none` on the error path. -/
def okResp : Except String (UpdateCheckResponse × List UpdateStatistic) →
    Option UpdateCheckResponse
  | .ok (resp, _) => some resp
  | .error _ => none

/-- Appended statistic rows of a successful check, `none` on the error
path. -/
def okStats : Except String (UpdateCheckResponse × List UpdateStatistic) →
    Option (List UpdateStatistic)
  | .ok (_, stats) => some stats
  | .error _ => none

/-- Embedding of the Pydantic `VersionCreate` publish payload. -/
structure VersionCreate where
  version : String
  release_notes : String
  download_url : String
  checksum_sha256 : String
  update_type : String := "optional"
  file_size : Option Int := some 0
  force_update : Bool := false
  min_required_version : String := "1.0.0.0"
deriving Repr, DecidableEq

/-- Embedding of the `create_version` handler (`app/routers/updates.py`,
lines 375-438).  The store is the list of persisted `UpdateVersion` rows;
the result pairs the store after the call with the outcome (the HTTP-400
"already exists" rejection is `Except.error`).  The size probe of a locally
accessible `download_url` artifact (`os.path.getsize`) is modelled as the
file being absent, leaving `data.file_size or 0`. -/
def create_version (store : List UpdateVersion) (data : VersionCreate) (now : Int)
    (newId : Nat) : List UpdateVersion × Except String UpdateVersion :=
  if store.any (fun v => v.version = data.version) then
    (store, .error ("Version " ++ data.version ++ " already exists"))
  else
    let newRec : UpdateVersion :=
      { id := newId
        version := data.version
        release_date := now
        release_notes := some data.release_notes
        download_url := data.download_url
        file_size := data.file_size.getD 0
        checksum_sha256 := data.checksum_sha256
        update_type := data.update_type
        force_update := data.force_update
        min_required_version := data.min_required_version
        is_active := true
        created_at := now
        updated_at := now }
    (store ++ [newRec], .ok newRec)

/-! ## Statistics aggregation (`get_update_statistics`) -/

/-- `round(100 * s / t, 2)` of the handler, computed exactly: the
round-half-even integer (Python's rounding) nearest to `10000 * s / t`,
i.e. the rounded rate in hundredths of a percent.  `q` and `r` are the
quotient and remainder of `10000 * s` by `t`; the fractional part `r / t`
decides the direction, ties going to the even neighbour.  (Python rounds
the IEEE double `100 * s / t`; its representation error is not modelled.) -/
def roundAt2 (s t : ℕ) : ℕ :=
  if 2 * (10000 * s % t) < t then 10000 * s / t
  else if t < 2 * (10000 * s % t) then 10000 * s / t + 1
  else if (10000 * s / t) % 2 = 0 then 10000 * s / t
  else 10000 * s / t + 1

/-- Row filter `action == "install"`. -/
def isInstallRow (s : UpdateStatistic) : Bool := s.action = "install"

/-- Row filter `action == "install" and status == "success"`. -/
def isSuccessInstallRow (s : UpdateStatistic) : Bool :=
  s.action = "install" && s.status = some "success"

/-- The JSON object returned by `GET /updates/statistics`. -/
structure StatisticsSummary where
  total_checks : Nat
  total_downloads : Nat
  total_installs : Nat
  success_installs : Nat
  success_rate : ℚ
  version_distribution : List (String × Nat)
deriving Repr, DecidableEq

/-- Embedding of the `get_update_statistics` handler
(`app/routers/updates.py`, lines 539-574): pure read over the append-only
statistics log.  `success_rate` is
`round(100 * success_installs / total_installs, 2)` when there are install
rows and `0` otherwise; the version distribution groups `check` rows with
non-null `current_version`. -/
def get_update_statistics (log : List UpdateStatistic) : StatisticsSummary :=
  let total_checks := (log.filter (fun s => s.action = "check")).length
  let total_downloads := (log.filter (fun s => s.action = "download")).length
  let total_installs := (log.filter isInstallRow).length
  let success_installs := (log.filter isSuccessInstallRow).length
  let success_rate : ℚ :=
    if 0 < total_installs then (roundAt2 success_installs total_installs : ℚ) / 100
    else 0
  let checkVersions :=
    (log.filter (fun s => s.action = "check")).filterMap (fun s => s.current_version)
  { total_checks := total_checks
    total_downloads := total_downloads
    total_installs := total_installs
    success_installs := success_installs
    success_rate := success_rate
    version_distribution :=
      checkVersions.dedup.map (fun v => (v, (checkVersions.filter (fun w => w = v)).length)) }

/-! ### Concrete update-side data used in witnesses and counterexamples -/

/-- A baseline published release `1.0.0.0`. -/
def verRecBase : UpdateVersion where
  id := 1
  version := "1.0.0.0"
  release_date := 0
  release_notes := none
  download_url := "https://example.test/dl"
  file_size := 100
  checksum_sha256 := "c"
  update_type := "optional"
  force_update := false
  min_required_version := "1.0.0.0"
  is_active := true
  created_at := 0
  updated_at := 0

/-- Release `2.0.0.0` requiring at least `1.5.0.0`. -/
def latestGate : UpdateVersion :=
  { verRecBase with id := 2, version := "2.0.0.0", min_required_version := "1.5.0.0" }

/-- A check request from a client currently on `1.0.0.0`. -/
def reqGate : UpdateCheckRequest where
  product := "SimpleBIM"
  currentVersion := "1.0.0.0"
  revitVersion := "2024"
  machineHash := "m1"
  os := "Windows 11"

/-- A check request whose `CurrentVersion` has a non-numeric 5th
component. -/
def reqJunk : UpdateCheckRequest := { reqGate with currentVersion := "1.2.3.4.x" }

/-- A check request whose `CurrentVersion` is entirely non-numeric. -/
def reqAlpha : UpdateCheckRequest := { reqGate with currentVersion := "abc" }

/-- A successful install event row. -/
def statInstallOk : UpdateStatistic where
  machine_hash := "m1"
  current_version := none
  target_version := some "1.0.0.0"
  revit_version := none
  os_version := none
  action := "install"
  status := some "success"
  error_message := none

/-- A failed install event row. -/
def statInstallFail : UpdateStatistic := { statInstallOk with status := some "failed" }

/-- A log with one successful and one failed install. -/
def logInstalls : List UpdateStatistic := [statInstallOk, statInstallFail]

/-- A publish payload for version `1.0.0.0`. -/
def dataPub : VersionCreate where
  version := "1.0.0.0"
  release_notes := "first release"
  download_url := "https://example.test/dl"
  checksum_sha256 := "c"

/-! ## Theorems about key validation -/

/-- C2: a key with a past expiry is never reported valid, whatever the
active flag and the payload. -/
theorem expired_never_valid (r : KeyRecord) (p : KeyValidateRequest) (now e : Int)
    (h1 : r.expired_at = some e) (h2 : e < now) :
    (validate (some r) p now).1.valid = false := by
  unfold validate
  rcases hb : r.is_active with _ | _
  · simp [hb]
  · simp [hb, isExpired, h1, h2]

/-- Witness for `expired_never_valid` at a concrete expired record. -/
theorem expired_never_valid_witness :
    (validate (some recExpired) payBare 10).1.valid = false :=
  expired_never_valid recExpired payBare 10 5 rfl (by decide)

/-- C3: a locked key (`is_active = false`) yields `valid = false` with note
"Key is locked", and the stored record is returned unchanged. -/
theorem locked_invalid_frame (r : KeyRecord) (p : KeyValidateRequest) (now : Int)
    (h : r.is_active = false) :
    (validate (some r) p now).1
        = { valid := false, is_active := false, expired_at := r.expired_at,
            machine_hash := none, note := "Key is locked" }
      ∧ (validate (some r) p now).2 = some r := by
  unfold validate
  simp [h]

/-- Witness for `locked_invalid_frame` at a concrete locked record. -/
theorem locked_invalid_frame_witness :
    (validate (some recLocked) payAbc 10).1
        = { valid := false, is_active := false, expired_at := recLocked.expired_at,
            machine_hash := none, note := "Key is locked" }
      ∧ (validate (some recLocked) payAbc 10).2 = some recLocked :=
  locked_invalid_frame recLocked payAbc 10 rfl

/-- Once a record carries a truthy (non-empty) fingerprint, no validate call
changes it: every branch either leaves the record alone or keeps the stored
fingerprint because `if not record.machine_hash` is false. -/
theorem machine_hash_frozen (r : KeyRecord) (p : KeyValidateRequest) (now : Int)
    (h : strTruthy r.machine_hash = true) :
    ((validate (some r) p now).2).map KeyRecord.machine_hash = some r.machine_hash := by
  unfold validate
  rcases hb : r.is_active with _ | _
  · simp [hb]
  · rcases he : isExpired r.expired_at now with _ | _
    · simp [hb, he, h]
    · simp [hb, he]

/-- C1 (amended): "first bind wins" holds for non-empty fingerprints.  A
valid-path call on a record with falsy (`None`/empty) stored fingerprint and
a non-empty payload fingerprint H1 stores H1, and every later validate call,
with any payload, leaves the stored fingerprint equal to H1.  (A first bind
to the empty string does not freeze the field, see the counterexample.) -/
theorem first_bind_wins (r : KeyRecord) (p : KeyValidateRequest) (now : Int) (hash1 : String)
    (ha : r.is_active = true) (hx : isExpired r.expired_at now = false)
    (hm : strTruthy r.machine_hash = false)
    (hp : p.machine_hash = some hash1) (hne : hash1 ≠ "") :
    ∃ r' : KeyRecord, (validate (some r) p now).2 = some r'
      ∧ r'.machine_hash = some hash1
      ∧ ∀ (p2 : KeyValidateRequest) (now2 : Int),
          ((validate (some r') p2 now2).2).map KeyRecord.machine_hash = some (some hash1) := by
  refine ⟨{ r with
      machine_name := orKeep p.machine_name r.machine_name
      os_version := orKeep p.os_version r.os_version
      revit_version := orKeep p.revit_version r.revit_version
      cpu_info := orKeep p.cpu_info r.cpu_info
      ip_address := orKeep p.ip_address r.ip_address
      machine_hash := some hash1
      last_check := some now }, ?_, rfl, ?_⟩
  · simp [validate, ha, hx, hm, hp]
  · intro p2 now2
    have hfz := machine_hash_frozen { r with
      machine_name := orKeep p.machine_name r.machine_name
      os_version := orKeep p.os_version r.os_version
      revit_version := orKeep p.revit_version r.revit_version
      cpu_info := orKeep p.cpu_info r.cpu_info
      ip_address := orKeep p.ip_address r.ip_address
      machine_hash := some hash1
      last_check := some now } p2 now2 (by simp [strTruthy, hne])
    simpa using hfz

/-- C1 counterexample: the claim as stated fails when the first bound
fingerprint H1 is the empty string.  Starting from an unbound record, a
valid call with `machine_hash = ""` stores `""` (the record's first non-null
assignment), yet a second call with `machine_hash = "h2" ≠ ""` overwrites it
with `"h2"`, because the guard uses Python truthiness, not an is-null test. -/
theorem first_bind_cex :
    ((validate (some recFresh) payEmptyHash 0).2.map KeyRecord.machine_hash)
        = some (some "")
      ∧ ((validate ((validate (some recFresh) payEmptyHash 0).2) payH2 1).2.map
          KeyRecord.machine_hash) = some (some "h2")
      ∧ (some "h2" : Option String) ≠ some "" := by decide

/-- Witness for `first_bind_wins`: the fresh record bound with `abc`. -/
theorem first_bind_wins_witness :
    ∃ r' : KeyRecord, (validate (some recFresh) payAbc 0).2 = some r'
      ∧ r'.machine_hash = some "abc"
      ∧ ∀ (p2 : KeyValidateRequest) (now2 : Int),
          ((validate (some r') p2 now2).2).map KeyRecord.machine_hash = some (some "abc") :=
  first_bind_wins recFresh payAbc 0 "abc" rfl rfl rfl rfl (by decide)

/-! ## Theorems about version parsing and the update gate -/

/-- Python tuple `<` agrees with the written-out lexicographic order. -/
theorem verLt_iff_lexLt (a b : VerTuple) : verLt a b = true ↔ lexLt a b := by
  rcases a with ⟨a1, a2, a3, a4⟩
  rcases b with ⟨b1, b2, b3, b4⟩
  simp only [verLt, lexLt]
  split_ifs <;> simp_all

/-- `verLt` is a trichotomous comparison on parsed versions. -/
theorem verLt_total (a b : VerTuple) : verLt a b = true ∨ a = b ∨ verLt b a = true := by
  rcases a with ⟨a1, a2, a3, a4⟩
  rcases b with ⟨b1, b2, b3, b4⟩
  simp only [verLt, Prod.mk.injEq]
  split_ifs <;> simp_all
  omega

/-- C6: versions parse to 4-component tuples with missing trailing
components defaulting to zero (`"1.2"` equals `"1.2.0.0"`), the parsed
examples order as claimed, and tuple comparison is exactly the
componentwise lexicographic order, which is total. -/
theorem version_parse_order :
    parse_version "1.2" = some (1, 2, 0, 0)
      ∧ parse_version "1.2.0.0" = some (1, 2, 0, 0)
      ∧ parse_version "1.2.1.0" = some (1, 2, 1, 0)
      ∧ parse_version "2.0.0.0" = some (2, 0, 0, 0)
      ∧ verLt (1, 2, 0, 0) (1, 2, 1, 0) = true
      ∧ verLt (1, 2, 1, 0) (2, 0, 0, 0) = true
      ∧ (∀ a b : VerTuple, verLt a b = true ↔ lexLt a b)
      ∧ (∀ a b : VerTuple, verLt a b = true ∨ a = b ∨ verLt b a = true) :=
  ⟨by decide, by decide, by decide, by decide, by decide, by decide,
    verLt_iff_lexLt, verLt_total⟩

/-- Witness for `version_parse_order`: its totality component applied to two
concrete parsed versions. -/
theorem version_parse_order_witness :
    verLt (1, 2, 0, 0) (2, 0, 0, 0) = true
      ∨ ((1, 2, 0, 0) : VerTuple) = (2, 0, 0, 0)
      ∨ verLt (2, 0, 0, 0) (1, 2, 0, 0) = true :=
  version_parse_order.2.2.2.2.2.2.2 (1, 2, 0, 0) (2, 0, 0, 0)

/-- C4: with an active latest record, the gate reports
`updateAvailable = (current < latest)`, `forceUpdate = (current < min)`, and
update type `"mandatory"` exactly when forced (else the stored type); the
comparison is the strict lexicographic tuple order. -/
theorem update_gate_decision (latest : UpdateVersion) (req : UpdateCheckRequest)
    (now : Int) (cur lat minr : VerTuple)
    (h1 : parse_version req.currentVersion = some cur)
    (h2 : parse_version latest.version = some lat)
    (h3 : parse_version latest.min_required_version = some minr) :
    (okResp (check_for_updates (some latest) req now)).map UpdateCheckResponse.updateAvailable
        = some (verLt cur lat)
      ∧ (okResp (check_for_updates (some latest) req now)).map UpdateCheckResponse.forceUpdate
        = some (verLt cur minr)
      ∧ (okResp (check_for_updates (some latest) req now)).map UpdateCheckResponse.updateType
        = some (if verLt cur minr then "mandatory" else latest.update_type)
      ∧ (verLt cur lat = true ↔ lexLt cur lat)
      ∧ (verLt cur minr = true ↔ lexLt cur minr) := by
  refine ⟨?_, ?_, ?_, verLt_iff_lexLt cur lat, verLt_iff_lexLt cur minr⟩ <;>
    simp [check_for_updates, h1, h2, h3, okResp]

/-- Witness for `update_gate_decision`: latest `2.0.0.0`, minimum required
`1.5.0.0`, current `1.0.0.0` gives available, forced, mandatory. -/
theorem update_gate_decision_witness :
    (okResp (check_for_updates (some latestGate) reqGate 0)).map
        UpdateCheckResponse.updateAvailable = some (verLt (1, 0, 0, 0) (2, 0, 0, 0))
      ∧ (okResp (check_for_updates (some latestGate) reqGate 0)).map
          UpdateCheckResponse.forceUpdate = some (verLt (1, 0, 0, 0) (1, 5, 0, 0))
      ∧ (okResp (check_for_updates (some latestGate) reqGate 0)).map
          UpdateCheckResponse.updateType
        = some (if verLt (1, 0, 0, 0) (1, 5, 0, 0) then "mandatory"
            else latestGate.update_type)
      ∧ (verLt (1, 0, 0, 0) (2, 0, 0, 0) = true ↔ lexLt (1, 0, 0, 0) (2, 0, 0, 0))
      ∧ (verLt (1, 0, 0, 0) (1, 5, 0, 0) = true ↔ lexLt (1, 0, 0, 0) (1, 5, 0, 0)) :=
  update_gate_decision latestGate reqGate 0 (1, 0, 0, 0) (2, 0, 0, 0) (1, 5, 0, 0)
    (by decide) (by decide) (by decide)

/-- C5 (amended): when an active latest record exists and the version
strings parse, exactly one `check`/`success` statistic row carrying the
caller's context is appended; when no active record exists, the handler
returns early and appends no row at all. -/
theorem check_logs_exactly_one_stat (latest : UpdateVersion) (req : UpdateCheckRequest)
    (now : Int) (cur lat minr : VerTuple)
    (h1 : parse_version req.currentVersion = some cur)
    (h2 : parse_version latest.version = some lat)
    (h3 : parse_version latest.min_required_version = some minr) :
    okStats (check_for_updates (some latest) req now)
        = some [{ machine_hash := req.machineHash
                  current_version := some req.currentVersion
                  target_version := if verLt cur lat then some latest.version else none
                  revit_version := some req.revitVersion
                  os_version := some req.os
                  action := "check"
                  status := some "success"
                  error_message := none }]
      ∧ ∀ (req2 : UpdateCheckRequest) (now2 : Int),
          okStats (check_for_updates none req2 now2) = some [] := by
  constructor
  · simp [check_for_updates, h1, h2, h3, okStats]
  · intro req2 now2
    simp [check_for_updates, okStats]

/-- C5 counterexample: a check call against an empty version store returns
the "no release" response and appends zero statistic rows, not one. -/
theorem check_no_release_no_stat_cex :
    okStats (check_for_updates none reqGate 0) = some []
      ∧ (okStats (check_for_updates none reqGate 0)).map List.length = some 0 := by decide

/-- Witness for `check_logs_exactly_one_stat` at the concrete gate data. -/
theorem check_logs_exactly_one_stat_witness :
    okStats (check_for_updates (some latestGate) reqGate 0)
        = some [{ machine_hash := reqGate.machineHash
                  current_version := some reqGate.currentVersion
                  target_version :=
                    if verLt (1, 0, 0, 0) (2, 0, 0, 0) then some latestGate.version else none
                  revit_version := some reqGate.revitVersion
                  os_version := some reqGate.os
                  action := "check"
                  status := some "success"
                  error_message := none }]
      ∧ ∀ (req2 : UpdateCheckRequest) (now2 : Int),
          okStats (check_for_updates none req2 now2) = some [] :=
  check_logs_exactly_one_stat latestGate reqGate 0 (1, 0, 0, 0) (2, 0, 0, 0) (1, 5, 0, 0)
    (by decide) (by decide) (by decide)

/-- C10: in the statistic row of a successful check that found an active
record, `target_version` is the latest version string exactly when the
response says an update is available, and null otherwise. -/
theorem check_stat_target_version (latest : UpdateVersion) (req : UpdateCheckRequest)
    (now : Int) (cur lat minr : VerTuple)
    (h1 : parse_version req.currentVersion = some cur)
    (h2 : parse_version latest.version = some lat)
    (h3 : parse_version latest.min_required_version = some minr) :
    (okResp (check_for_updates (some latest) req now)).map UpdateCheckResponse.updateAvailable
        = some (verLt cur lat)
      ∧ (okStats (check_for_updates (some latest) req now)).map
          (fun stats => stats.map UpdateStatistic.target_version)
        = some [if verLt cur lat then some latest.version else none] := by
  constructor <;> simp [check_for_updates, h1, h2, h3, okResp, okStats]

/-- Witness for `check_stat_target_version`: update available, so the row
carries the latest version string. -/
theorem check_stat_target_version_witness :
    (okResp (check_for_updates (some latestGate) reqGate 0)).map
        UpdateCheckResponse.updateAvailable = some (verLt (1, 0, 0, 0) (2, 0, 0, 0))
      ∧ (okStats (check_for_updates (some latestGate) reqGate 0)).map
          (fun stats => stats.map UpdateStatistic.target_version)
        = some [if verLt (1, 0, 0, 0) (2, 0, 0, 0) then some latestGate.version else none] :=
  check_stat_target_version latestGate reqGate 0 (1, 0, 0, 0) (2, 0, 0, 0) (1, 5, 0, 0)
    (by decide) (by decide) (by decide)

/-- C9 (amended): `parse_version` fails exactly when one of the first four
dot-separated components (after strip/pad) is not an integer literal, and
when an active record exists a check whose `CurrentVersion` fails to parse
surfaces as the internal-error response. -/
theorem parse_fail_internal_error (latest : UpdateVersion) (req : UpdateCheckRequest)
    (now : Int) (h : parse_version req.currentVersion = none) :
    check_for_updates (some latest) req now = .error "Update check failed"
      ∧ ∀ s : String, parse_version s = none ↔
          (pyInt ((verComponents s).getD 0 ['0']) = none
            ∨ pyInt ((verComponents s).getD 1 ['0']) = none
            ∨ pyInt ((verComponents s).getD 2 ['0']) = none
            ∨ pyInt ((verComponents s).getD 3 ['0']) = none) := by
  constructor
  · simp [check_for_updates, h]
  · intro s
    simp only [parse_version]
    rcases hh0 : pyInt ((verComponents s).getD 0 ['0']) with _ | a
    all_goals rcases hh1 : pyInt ((verComponents s).getD 1 ['0']) with _ | b
    all_goals rcases hh2 : pyInt ((verComponents s).getD 2 ['0']) with _ | c
    all_goals rcases hh3 : pyInt ((verComponents s).getD 3 ['0']) with _ | d
    all_goals simp [hh0, hh1, hh2, hh3]

/-- C9 counterexample: `"1.2.3.4.x"` contains the non-numeric component
`"x"`, yet `parse_version` succeeds (only the first four components are
converted) and the check endpoint returns a decision, not an error. -/
theorem parse_junk_component_cex :
    (verComponents "1.2.3.4.x").getD 4 [] = ['x']
      ∧ pyInt ['x'] = none
      ∧ parse_version "1.2.3.4.x" = some (1, 2, 3, 4)
      ∧ (okResp (check_for_updates (some verRecBase) reqJunk 0)).isSome = true := by decide

/-- Witness for `parse_fail_internal_error`: `CurrentVersion = "abc"`. -/
theorem parse_fail_internal_error_witness :
    check_for_updates (some verRecBase) reqAlpha 0 = .error "Update check failed"
      ∧ ∀ s : String, parse_version s = none ↔
          (pyInt ((verComponents s).getD 0 ['0']) = none
            ∨ pyInt ((verComponents s).getD 1 ['0']) = none
            ∨ pyInt ((verComponents s).getD 2 ['0']) = none
            ∨ pyInt ((verComponents s).getD 3 ['0']) = none) :=
  parse_fail_internal_error verRecBase reqAlpha 0 (by decide)

/-! ## Theorems about publishing and statistics aggregation -/

/-- C8: publishing a fresh version string succeeds and stores one record;
publishing the same string again is rejected as a conflict and leaves the
store untouched, so exactly one record for that string remains. -/
theorem publish_conflict (store : List UpdateVersion) (data : VersionCreate)
    (now1 now2 : Int) (id1 id2 : Nat)
    (h : store.any (fun v => v.version = data.version) = false) :
    (∃ rec, (create_version store data now1 id1).2 = .ok rec)
      ∧ ((create_version store data now1 id1).1.filter
          (fun v => v.version = data.version)).length = 1
      ∧ (∃ msg, (create_version (create_version store data now1 id1).1 data now2 id2).2
          = .error msg)
      ∧ (create_version (create_version store data now1 id1).1 data now2 id2).1
          = (create_version store data now1 id1).1
      ∧ ∀ (store2 : List UpdateVersion),
          store2.any (fun v => v.version = data.version) = true →
            (create_version store2 data now2 id2).1 = store2
              ∧ ∃ msg, (create_version store2 data now2 id2).2 = .error msg := by
  have h' : ∀ v ∈ store, ¬(v.version = data.version) := by
    simpa [List.any_eq_false] using h
  have hfil : store.filter (fun v => v.version = data.version) = [] :=
    List.filter_eq_nil_iff.mpr (by intro v hv; simpa using h' v hv)
  refine ⟨?_, ?_, ?_, ?_, ?_⟩
  · simp [create_version, h]
  · simp [create_version, h, hfil, List.filter_append]
  · simp [create_version, h, List.any_append]
  · simp [create_version, h, List.any_append]
  · intro store2 h2
    unfold create_version
    rw [if_pos h2]
    exact ⟨rfl, ⟨_, rfl⟩⟩

/-- Witness for `publish_conflict`: publishing `1.0.0.0` twice into an
empty store. -/
theorem publish_conflict_witness :
    (∃ rec, (create_version [] dataPub 0 1).2 = .ok rec)
      ∧ ((create_version [] dataPub 0 1).1.filter
          (fun v => v.version = dataPub.version)).length = 1
      ∧ (∃ msg, (create_version (create_version [] dataPub 0 1).1 dataPub 7 2).2
          = .error msg)
      ∧ (create_version (create_version [] dataPub 0 1).1 dataPub 7 2).1
          = (create_version [] dataPub 0 1).1
      ∧ ∀ (store2 : List UpdateVersion),
          store2.any (fun v => v.version = dataPub.version) = true →
            (create_version store2 dataPub 7 2).1 = store2
              ∧ ∃ msg, (create_version store2 dataPub 7 2).2 = .error msg :=
  publish_conflict [] dataPub 0 7 1 2 (by decide)

/-- The rounded value `roundAt2 s t` is within half a hundredth-of-a-percent
unit of the exact value `10000 * s / t`. -/
theorem roundAt2_close (s t : ℕ) (ht : 0 < t) :
    |(roundAt2 s t : ℚ) - 10000 * (s : ℚ) / (t : ℚ)| ≤ 1 / 2 := by
  have htq : (0 : ℚ) < (t : ℚ) := by exact_mod_cast ht
  have hdm : t * (10000 * s / t) + 10000 * s % t = 10000 * s := Nat.div_add_mod _ _
  have hcast : ((10000 * s / t : ℕ) : ℚ) * (t : ℚ) + ((10000 * s % t : ℕ) : ℚ)
      = 10000 * (s : ℚ) := by
    have hq := congrArg (fun n : ℕ => (n : ℚ)) hdm
    push_cast at hq
    linarith
  have hx : 10000 * (s : ℚ) / (t : ℚ)
      = ((10000 * s / t : ℕ) : ℚ) + ((10000 * s % t : ℕ) : ℚ) / (t : ℚ) := by
    rw [← hcast]
    field_simp
  have hr0 : (0 : ℚ) ≤ ((10000 * s % t : ℕ) : ℚ) := Nat.cast_nonneg _
  have hrt : ((10000 * s % t : ℕ) : ℚ) < (t : ℚ) := by
    exact_mod_cast Nat.mod_lt _ ht
  have hdivlt : ((10000 * s % t : ℕ) : ℚ) / (t : ℚ) < 1 := (div_lt_one htq).mpr hrt
  have hdiv0 : (0 : ℚ) ≤ ((10000 * s % t : ℕ) : ℚ) / (t : ℚ) := by positivity
  rw [hx]
  unfold roundAt2
  split_ifs with h1 h2 h3
  · have h1q : 2 * ((10000 * s % t : ℕ) : ℚ) ≤ (t : ℚ) := by
      exact_mod_cast Nat.le_of_lt h1
    have hdiv : ((10000 * s % t : ℕ) : ℚ) / (t : ℚ) ≤ 1 / 2 := by
      rw [div_le_div_iff₀ htq (by norm_num : (0 : ℚ) < 2)]
      linarith
    rw [abs_le]
    constructor <;> linarith
  · have h2q : (t : ℚ) ≤ 2 * ((10000 * s % t : ℕ) : ℚ) := by
      exact_mod_cast Nat.le_of_lt h2
    have hdiv : 1 / 2 ≤ ((10000 * s % t : ℕ) : ℚ) / (t : ℚ) := by
      rw [div_le_div_iff₀ (by norm_num : (0 : ℚ) < 2) htq]
      linarith
    rw [abs_le]
    constructor <;> push_cast <;> linarith
  all_goals {
    have heq : (t : ℚ) = 2 * ((10000 * s % t : ℕ) : ℚ) := by
      have : t = 2 * (10000 * s % t) := by omega
      exact_mod_cast this
    have hdiv : ((10000 * s % t : ℕ) : ℚ) / (t : ℚ) = 1 / 2 := by
      rw [heq]
      rw [div_eq_iff (by linarith : (2 : ℚ) * ((10000 * s % t : ℕ) : ℚ) ≠ 0)]
      ring
    rw [abs_le]
    constructor <;> push_cast <;> linarith }

/-- C7 (amended): the reported `success_rate` is the *percentage* of
successful installs — `round(100 * success / total, 2)` — not the plain
ratio: it is `0` with no install rows, equals the rounded percentage in
hundredths otherwise, and lies within `1/200` of the exact percentage
`100 * success / total`. -/
theorem success_rate_percentage (log : List UpdateStatistic) :
    ((log.filter isInstallRow).length = 0 → (get_update_statistics log).success_rate = 0)
      ∧ (0 < (log.filter isInstallRow).length →
          (get_update_statistics log).success_rate
              = (roundAt2 (log.filter isSuccessInstallRow).length
                  (log.filter isInstallRow).length : ℚ) / 100
            ∧ |(get_update_statistics log).success_rate
                  - 100 * ((log.filter isSuccessInstallRow).length : ℚ)
                    / ((log.filter isInstallRow).length : ℚ)| ≤ 1 / 200) := by
  constructor
  · intro h0
    simp [get_update_statistics, h0]
  · intro hpos
    have hrate : (get_update_statistics log).success_rate
        = (roundAt2 (log.filter isSuccessInstallRow).length
            (log.filter isInstallRow).length : ℚ) / 100 := by
      simp [get_update_statistics, hpos]
    refine ⟨hrate, ?_⟩
    have hclose := roundAt2_close (log.filter isSuccessInstallRow).length
      (log.filter isInstallRow).length hpos
    rw [hrate]
    have hsplit : (roundAt2 (log.filter isSuccessInstallRow).length
            (log.filter isInstallRow).length : ℚ) / 100
          - 100 * ((log.filter isSuccessInstallRow).length : ℚ)
            / ((log.filter isInstallRow).length : ℚ)
        = ((roundAt2 (log.filter isSuccessInstallRow).length
            (log.filter isInstallRow).length : ℚ)
          - 10000 * ((log.filter isSuccessInstallRow).length : ℚ)
            / ((log.filter isInstallRow).length : ℚ)) / 100 := by
      ring
    rw [hsplit, abs_div]
    have h100 : |(100 : ℚ)| = 100 := by norm_num
    rw [h100, div_le_div_iff₀ (by norm_num : (0 : ℚ) < 100) (by norm_num : (0 : ℚ) < 200)]
    linarith

/-- C7 counterexample: with one successful and one failed install the code
reports `success_rate = 50` (a rounded percentage), while the ratio of
successful to total installs is `1/2 ≠ 50`. -/
theorem success_rate_cex :
    (get_update_statistics logInstalls).success_installs = 1
      ∧ (get_update_statistics logInstalls).total_installs = 2
      ∧ (get_update_statistics logInstalls).success_rate = 50
      ∧ (50 : ℚ) ≠ (1 : ℚ) / 2 := by
  have hfil1 : (logInstalls.filter isSuccessInstallRow).length = 1 := by decide
  have hfil2 : (logInstalls.filter isInstallRow).length = 2 := by decide
  have hround : roundAt2 1 2 = 5000 := by decide
  refine ⟨by decide, by decide, ?_, by norm_num⟩
  show (get_update_statistics logInstalls).success_rate = 50
  simp only [get_update_statistics]
  rw [hfil1, hfil2, hround]
  norm_num

/-- Witness for `success_rate_percentage` at the two-install log. -/
theorem success_rate_percentage_witness :
    (get_update_statistics logInstalls).success_rate
        = (roundAt2 (logInstalls.filter isSuccessInstallRow).length
            (logInstalls.filter isInstallRow).length : ℚ) / 100
      ∧ |(get_update_statistics logInstalls).success_rate
            - 100 * ((logInstalls.filter isSuccessInstallRow).length : ℚ)
              / ((logInstalls.filter isInstallRow).length : ℚ)| ≤ 1 / 200 :=
  (success_rate_percentage logInstalls).2 (by decide)

end Backend
